import Mathlib

/-
Verification of the Chattrix real-time messaging core (src/app.py) against its
natural-language specification.

The embedding below translates the Socket.IO event handlers of app.py into pure
Lean functions over an explicit server state.  Conventions:

* Python dicts keyed by user id (`dictOnlineUsers`, `dictUserLocations`) become
  insertion-ordered association lists `List (Nat × _)`; updating an existing key
  keeps its position, a new key is appended (CPython dict semantics).
* Socket.IO room names are the strings `f"user_{id}"` and
  `f"private_{min}_{max}"`.  Decimal digit strings never contain an underscore,
  so these two formats are injective and disjoint; they are embedded as the
  structured type `Room` below.
* Flask-SocketIO's in-handler `emit(event, data)` addresses ONLY the requesting
  client: when neither `room`/`to` nor `broadcast=True` is given, the library
  sets `to = request.sid` (every client sits in a room named by its own sid).
  `emit(..., include_self=False)` without a room additionally sets
  `skip_sid = request.sid`.  Each emit therefore carries an explicit `Target`;
  the function `recipients` spells out which connected clients receive it.
* Wall-clock timestamps, avatar/profile-picture URLs and similar display-only
  fields are elided from event payloads; every field a routing or persistence
  decision depends on is kept.
* Database rows (Message, Conversation) are records in lists, with ids handed
  out by a counter; `db.session.add`/`commit` becomes appending/updating a row.
* A handler that raises an uncaught Python exception (e.g. `data['key']` on a
  payload missing the key, or `.get` on a plain string) is modelled by the
  `crashed` flag of its result; in app.py every such raise happens before any
  side effect, so the state and effect lists are those accumulated so far.
-/

set_option autoImplicit false

namespace Chattrix

/-- Profile data of the authenticated user attached to a socket connection
(`current_user` in app.py): id, username, display name (the empty string
models a falsy/absent display name), admin flag, and
`current_user.is_authenticated`. -/
structure Profile where
  id : Nat
  username : String
  displayName : String
  isAdmin : Bool
  authed : Bool
  deriving Repr, DecidableEq

/-- A live socket connection: its session id and the user driving it. -/
structure Conn where
  sid : Nat
  user : Profile
  deriving Repr, DecidableEq

/-- The value stored in `dictOnlineUsers[user.id]` by `handle_connect`
(app.py:1157-1162): id, username and display name (profile_pic elided). -/
structure OnlineEntry where
  id : Nat
  username : String
  displayName : String
  deriving Repr, DecidableEq

/-- Socket.IO room names used by app.py.  `user id` is the string
`f"user_{id}"` (personal room); `pair a b` is `f"private_{a}_{b}"` as built by
`handle_join_private_room` after ordering.  Both formats are injective and
mutually disjoint, so the structured form is faithful. -/
inductive Room where
  | user (id : Nat)
  | pair (a b : Nat)
  deriving Repr, DecidableEq

/-- Addressing of one `emit` call, per Flask-SocketIO semantics:
`caller` is a bare `emit(event, data)` (delivered to `request.sid` only);
`room r` is `emit(..., room=r)`;
`callerExceptSelf` is `emit(..., include_self=False)` with no room and no
broadcast flag, i.e. `to = request.sid` combined with `skip_sid = request.sid`. -/
inductive Target where
  | caller
  | room (r : Room)
  | callerExceptSelf
  deriving Repr, DecidableEq

/-- Event payloads emitted by the handlers (display-only fields elided). -/
inductive EData where
  | onlineList (entries : List OnlineEntry)
  | publicMsg (id : Nat) (senderId : Nat) (text : String)
  | privateMsg (id : Nat) (senderId : Nat) (recipientId : Nat) (text : String)
  | notify (ntype : String) (title : String) (message : String)
      (chatUrl : String) (senderId : Option Nat)
  | errorMsg (message : String)
  | successMsg (message : String)
  | pinUpdate (messageId : Nat)
  | unpinUpdate (messageId : Nat)
  | typingInd (userId : Nat) (username : String) (displayName : String)
      (isTyping : Bool) (chatType : String)
  deriving Repr, DecidableEq

/-- One `emit(...)` call: event name, payload, addressing. -/
structure Emit where
  event : String
  data : EData
  target : Target
  deriving Repr, DecidableEq

/-- One `send_web_push(user_id, title, body, url)` delivery attempt
(app.py:504). -/
structure Push where
  userId : Nat
  title : String
  body : String
  url : String
  deriving Repr, DecidableEq

/-- A persisted `Message` row (app.py:183): id, sender, optional recipient
(`none` = public), text, privacy flag, pinned flag.  Timestamps and file
attachment fields are elided (no claim depends on them). -/
structure MessageRec where
  id : Nat
  senderId : Nat
  recipientId : Option Nat
  text : String
  isPrivate : Bool
  pinned : Bool
  deriving Repr, DecidableEq

/-- A persisted `Conversation` row (app.py:206): id, the two user ids as
stored, and the last-message pointer (updated-at timestamp elided). -/
structure ConversationRec where
  id : Nat
  user1Id : Nat
  user2Id : Nat
  lastMessageId : Option Nat
  deriving Repr, DecidableEq

/-- The server state visible to the handlers: the two global dicts
(`dictOnlineUsers` app.py:319, `dictUserLocations` app.py:145), Socket.IO
named-room membership (lists of sids), the `User` table (ids only, for
`User.query.get`), and the `Message`/`Conversation` tables with their id
counters. -/
structure ServerState where
  onlineUsers : List (Nat × OnlineEntry) := []
  userLocations : List (Nat × Option String) := []
  rooms : List (Room × List Nat) := []
  users : List Nat := []
  messages : List MessageRec := []
  nextMessageId : Nat := 1
  conversations : List ConversationRec := []
  nextConversationId : Nat := 1
  deriving Repr, DecidableEq

/-- The result of running one handler: the new state, the `emit` calls and
push attempts issued in order, and whether the handler raised an uncaught
exception. -/
structure HandlerOut where
  state : ServerState
  emits : List Emit
  pushes : List Push
  crashed : Bool
  deriving Repr, DecidableEq

/-- Structured payload of a client event; `none` fields model absent dict
keys, mirroring Python `data.get(...)`. -/
structure PDict where
  text : Option String := none
  message : Option String := none
  recipientId : Option Nat := none
  messageId : Option Nat := none
  chatType : Option String := none
  isTyping : Option Bool := none
  location : Option String := none
  deriving Repr, DecidableEq

/-- A client event payload is either a bare string or a dict
(app.py accepts both; `handle_new_message` at app.py:1587 coerces strings). -/
inductive Payload where
  | str (s : String)
  | dict (d : PDict)
  deriving Repr, DecidableEq

/-- CPython dict assignment `m[k] = v` on an insertion-ordered map: an existing
key keeps its position, a fresh key is appended. -/
def assocSet {α : Type} (l : List (Nat × α)) (k : Nat) (v : α) : List (Nat × α) :=
  if l.any (fun p => p.1 == k) then
    l.map (fun p => if p.1 == k then (k, v) else p)
  else
    l ++ [(k, v)]

/-- Python truthiness of an optional integer: `None` and `0` are falsy. -/
def natTruthy : Option Nat → Bool
  | some n => n != 0
  | none => false

/-- The members (sids) of a named room; an unknown room is empty. -/
def roomMembers (rooms : List (Room × List Nat)) (r : Room) : List Nat :=
  match rooms.find? (fun p => p.1 = r) with
  | some p => p.2
  | none => []

/-- `join_room(r)` by the calling sid: idempotent membership insert. -/
def joinRoom (rooms : List (Room × List Nat)) (r : Room) (sid : Nat) :
    List (Room × List Nat) :=
  if rooms.any (fun p => p.1 = r) then
    rooms.map (fun p =>
      if p.1 = r then (p.1, if p.2.contains sid then p.2 else p.2 ++ [sid]) else p)
  else
    rooms ++ [(r, [sid])]

/-- `leave_room(r)` by the calling sid. -/
def leaveRoom (rooms : List (Room × List Nat)) (r : Room) (sid : Nat) :
    List (Room × List Nat) :=
  rooms.map (fun p => if p.1 = r then (p.1, p.2.filter (fun s => s != sid)) else p)

/-- Which connected clients (sids) receive an emit with the given target,
issued from `callerSid`, per the Flask-SocketIO addressing described above.
For `callerExceptSelf` the destination room is the caller's own sid room and
the caller's sid is skipped, so the recipient list is empty. -/
def recipients (rooms : List (Room × List Nat)) (connected : List Nat)
    (callerSid : Nat) : Target → List Nat
  | .caller => connected.filter (fun s => s == callerSid)
  | .room r => (roomMembers rooms r).filter (fun s => connected.contains s)
  | .callerExceptSelf =>
      (connected.filter (fun s => s == callerSid)).filter (fun s => s != callerSid)

/-- Python `current_user.display_name or current_user.username`; the empty
string models a falsy display name. -/
def displayOrUsername (p : Profile) : String :=
  if p.displayName = "" then p.username else p.displayName

/-- The whitespace set of Python `str.strip()`. -/
def pyIsSpace (c : Char) : Bool :=
  c = ' ' || c = '\t' || c = '\n' || c = '\r' || c = '\x0b' || c = '\x0c'

/-- Python `s.strip()`: drop whitespace from both ends. -/
def pyStrip (s : String) : String :=
  ⟨((s.data.dropWhile pyIsSpace).reverse.dropWhile pyIsSpace).reverse⟩

/-- Python `s[:n]` on a string. -/
def pyTake (s : String) (n : Nat) : String := ⟨s.data.take n⟩

/-- Python `len(s)`. -/
def pyLen (s : String) : Nat := s.data.length

/-- Python `s[:n] + ("..." if len(s) > n else "")`. -/
def truncEllipsis (s : String) (n : Nat) : String :=
  pyTake s n ++ (if n < pyLen s then "..." else "")

/-- A handler result with no effects and no crash. -/
def noEffects (st : ServerState) : HandlerOut := ⟨st, [], [], false⟩

/-- A handler result for an uncaught exception raised before any side effect. -/
def crashOut (st : ServerState) : HandlerOut := ⟨st, [], [], true⟩

/-- The `OnlineEntry` stored for a connecting user (app.py:1157-1162). -/
def onlineEntryOf (p : Profile) : OnlineEntry := ⟨p.id, p.username, p.displayName⟩

/-- Embeds `handle_connect` (app.py:1139-1170): for an authenticated user,
store the profile in `dictOnlineUsers`, `join_room(f"user_{id}")`, then
`emit('online_users', list(dictOnlineUsers.values()))` — a bare emit, hence
addressed to the caller only. -/
def handle_connect (st : ServerState) (caller : Conn) : HandlerOut :=
  if caller.user.authed then
    let st1 : ServerState :=
      { st with
        onlineUsers := assocSet st.onlineUsers caller.user.id (onlineEntryOf caller.user),
        rooms := joinRoom st.rooms (.user caller.user.id) caller.sid }
    ⟨st1, [⟨"online_users", .onlineList (st1.onlineUsers.map (fun p => p.2)), .caller⟩],
      [], false⟩
  else noEffects st

/-- Embeds `handle_disconnect` (app.py:1172-1198): for an authenticated user,
delete the `dictOnlineUsers` entry if present, `leave_room(f"user_{id}")`,
then `emit('online_users', ...)` — again a bare emit to the caller only.
Note that `dictUserLocations` is NOT touched. -/
def handle_disconnect (st : ServerState) (caller : Conn) : HandlerOut :=
  if caller.user.authed then
    let st1 : ServerState :=
      { st with
        onlineUsers := st.onlineUsers.filter (fun p => p.1 != caller.user.id),
        rooms := leaveRoom st.rooms (.user caller.user.id) caller.sid }
    ⟨st1, [⟨"online_users", .onlineList (st1.onlineUsers.map (fun p => p.2)), .caller⟩],
      [], false⟩
  else noEffects st

/-- Embeds `handle_user_location` (app.py:1200-1219):
`dictUserLocations[current_user.id] = data.get('location')` (a missing key
stores `None`, modelled as the value `none`). -/
def handle_user_location (st : ServerState) (caller : Conn) (data : Payload) :
    HandlerOut :=
  if caller.user.authed then
    match data with
    | .str _ => crashOut st
    | .dict d =>
        ⟨{ st with userLocations := assocSet st.userLocations caller.user.id d.location },
          [], [], false⟩
  else noEffects st

/-- Embeds `handle_send_message` (app.py:1380-1456), the public-message
handler: strip the text and drop empty messages; persist a public row
(`recipient_id=None`, `is_private=False`); `emit('receive_message', ...)` —
bare emit, caller only; then for every entry of `dictUserLocations` whose key
is not the sender and whose value differs from `'public_chat'`, emit a
`notification` to that user's personal room and attempt a web push.  Users
with no location entry are skipped entirely.  A bare-string payload crashes at
`data.get` before any side effect. -/
def handle_send_message (st : ServerState) (caller : Conn) (data : Payload) :
    HandlerOut :=
  if caller.user.authed then
    match data with
    | .str _ => crashOut st
    | .dict d =>
        let text := pyStrip (d.text.getD "")
        if text = "" then noEffects st
        else
          let mid := st.nextMessageId
          let st1 : ServerState :=
            { st with
              messages := st.messages ++ [⟨mid, caller.user.id, none, text, false, false⟩],
              nextMessageId := mid + 1 }
          let senderName := displayOrUsername caller.user
          let notifTargets :=
            st1.userLocations.filter
              (fun p => p.1 != caller.user.id && p.2 != some "public_chat")
          let notifEmits := notifTargets.map (fun p =>
            (⟨"notification",
              .notify "public_message" "New message in Public Chat"
                (senderName ++ ": " ++ pyTake text 50 ++ "...") "/" none,
              .room (.user p.1)⟩ : Emit))
          let pushes := notifTargets.map (fun p =>
            (⟨p.1, "New message in Public Chat",
              senderName ++ ": " ++ truncEllipsis text 50, "/chat"⟩ : Push))
          ⟨st1,
            ⟨"receive_message", .publicMsg mid caller.user.id text, .caller⟩ :: notifEmits,
            pushes, false⟩
  else noEffects st

/-- Python `data.get('text') or data.get('message', '')` (app.py:1489): an
absent or empty `text` falls through to `message` (default `''`). -/
def pyTextOrMessage (d : PDict) : String :=
  match d.text with
  | some t => if t = "" then d.message.getD "" else t
  | none => d.message.getD ""

/-- The row filter of `getOrCreateConversation` (app.py:631-634): the row
matches the pair `(a, b)` in either orientation. -/
def convMatches (c : ConversationRec) (a b : Nat) : Bool :=
  (c.user1Id == a && c.user2Id == b) || (c.user1Id == b && c.user2Id == a)

/-- Embeds `getOrCreateConversation` (app.py:613-645): find the first
`Conversation` row matching the pair in either orientation; if none exists,
create one with the ids in `(min, max)` order.  Returns the updated state and
the row id. -/
def getOrCreateConversation (st : ServerState) (a b : Nat) : ServerState × Nat :=
  match st.conversations.find? (fun c => convMatches c a b) with
  | some c => (st, c.id)
  | none =>
      let c : ConversationRec := ⟨st.nextConversationId, min a b, max a b, none⟩
      ({ st with
          conversations := st.conversations ++ [c],
          nextConversationId := st.nextConversationId + 1 }, c.id)

/-- The per-row update of `setConversationLastMessage`: point row `cid` at
message `mid`, leave other rows alone. -/
def updLast (cid mid : Nat) (c : ConversationRec) : ConversationRec :=
  if c.id == cid then { c with lastMessageId := some mid } else c

/-- `conversation.last_message_id = message.id; db.session.commit()`
(app.py:1509-1511). -/
def setConversationLastMessage (st : ServerState) (cid mid : Nat) : ServerState :=
  { st with conversations := st.conversations.map (updLast cid mid) }

/-- The shared delivery tail of both private-message handlers
(app.py:1496-1551 and app.py:1325-1375): persist the private row, look up or
create the conversation and point it at the new message, emit
`receive_private_message` to both personal rooms, emit a `notification` to the
recipient's personal room (unconditionally — neither handler consults
`dictUserLocations`), and attempt a web push to the recipient. -/
def sendPrivateCore (st : ServerState) (sender : Profile) (rid : Nat)
    (mtext : String) : HandlerOut :=
  let mid := st.nextMessageId
  let st1 : ServerState :=
    { st with
      messages := st.messages ++ [⟨mid, sender.id, some rid, mtext, true, false⟩],
      nextMessageId := mid + 1 }
  let stp := getOrCreateConversation st1 sender.id rid
  let st2 := setConversationLastMessage stp.1 stp.2 mid
  let senderName := displayOrUsername sender
  ⟨st2,
    [⟨"receive_private_message", .privateMsg mid sender.id rid mtext, .room (.user sender.id)⟩,
     ⟨"receive_private_message", .privateMsg mid sender.id rid mtext, .room (.user rid)⟩,
     ⟨"notification",
       .notify "private_message" ("Message from " ++ senderName)
         (truncEllipsis mtext 100) ("/chat/" ++ toString sender.id) (some sender.id),
       .room (.user rid)⟩],
    [⟨rid, "Message from " ++ senderName, truncEllipsis mtext 100,
      "/chat/" ++ toString sender.id⟩],
    false⟩

/-- Embeds `handle_send_private_message` (app.py:1459-1551): read
`recipient_id` and `text or message`; if the recipient id is falsy (`None` or
`0`) or the text is empty, `emit('error', {'message': 'Missing recipient or
message'})` to the caller only and stop; otherwise run the shared private
delivery (no recipient-existence check in this handler). -/
def handle_send_private_message (st : ServerState) (caller : Conn)
    (data : Payload) : HandlerOut :=
  if caller.user.authed then
    match data with
    | .str _ => crashOut st
    | .dict d =>
        let mtext := pyTextOrMessage d
        if !natTruthy d.recipientId || mtext = "" then
          ⟨st, [⟨"error", .errorMsg "Missing recipient or message", .caller⟩], [], false⟩
        else
          sendPrivateCore st caller.user (d.recipientId.getD 0) mtext
  else noEffects st

/-- Embeds `handle_private_message` (app.py:1294-1377), the alias handler for
the `private_message` event: `data['recipient_id']` and `data['message']` are
read by subscription, so a missing key (or a bare-string payload) raises
before any side effect; `User.query.get(recipient_id)` returning no row makes
the handler return silently; otherwise the shared private delivery runs with
NO validation of the message text (empty bodies are persisted). -/
def handle_private_message (st : ServerState) (caller : Conn) (data : Payload) :
    HandlerOut :=
  if caller.user.authed then
    match data with
    | .str _ => crashOut st
    | .dict d =>
        match d.recipientId, d.message with
        | some rid, some mtext =>
            if st.users.contains rid then
              sendPrivateCore st caller.user rid mtext
            else noEffects st
        | _, _ => crashOut st
  else noEffects st

/-- Embeds `handle_message` (app.py:1554-1569): literal delegation to
`handle_send_message`. -/
def handle_message (st : ServerState) (caller : Conn) (data : Payload) :
    HandlerOut :=
  handle_send_message st caller data

/-- Embeds `handle_new_message` (app.py:1571-1590): a bare string `s` is
coerced to `{'text': s}`, after which it delegates to `handle_send_message`. -/
def handle_new_message (st : ServerState) (caller : Conn) (data : Payload) :
    HandlerOut :=
  handle_send_message st caller
    (match data with
     | .str s => .dict { text := some s }
     | .dict d => .dict d)

/-- Embeds `handle_send_public_message` (app.py:1592-1607): literal delegation
to `handle_send_message`. -/
def handle_send_public_message (st : ServerState) (caller : Conn)
    (data : Payload) : HandlerOut :=
  handle_send_message st caller data

/-- `db.session.get(Message, message_id)` on the embedded message table. -/
def findMessage (st : ServerState) (mid : Nat) : Option MessageRec :=
  st.messages.find? (fun m => m.id == mid)

/-- Set the pinned flag of the row with the given id. -/
def setPinned (st : ServerState) (mid : Nat) (b : Bool) : ServerState :=
  { st with
    messages := st.messages.map (fun m =>
      if m.id == mid then { m with pinned := b } else m) }

/-- Embeds `handle_pin_message` (app.py:1610-1653): non-admin (or
unauthenticated) issuers get an `error`; a falsy message id gets an `error`;
an existing non-private message has its pinned flag set to `True` with
`update_pinned` and `success` emits (both bare emits, caller only); a missing
or private message gets an `error` with no mutation. -/
def handle_pin_message (st : ServerState) (caller : Conn) (data : Payload) :
    HandlerOut :=
  if !(caller.user.authed && caller.user.isAdmin) then
    ⟨st, [⟨"error", .errorMsg "Admin access required", .caller⟩], [], false⟩
  else
    match data with
    | .str _ => crashOut st
    | .dict d =>
        if !natTruthy d.messageId then
          ⟨st, [⟨"error", .errorMsg "Message ID required", .caller⟩], [], false⟩
        else
          let mid := d.messageId.getD 0
          match findMessage st mid with
          | some m =>
              if !m.isPrivate then
                ⟨setPinned st mid true,
                  [⟨"update_pinned", .pinUpdate mid, .caller⟩,
                   ⟨"success", .successMsg "Message pinned successfully", .caller⟩],
                  [], false⟩
              else
                ⟨st, [⟨"error", .errorMsg "Message not found or is private", .caller⟩],
                  [], false⟩
          | none =>
              ⟨st, [⟨"error", .errorMsg "Message not found or is private", .caller⟩],
                [], false⟩

/-- Embeds `handle_unpin_message` (app.py:1655-1701): same admin and id
checks as pin, but ANY existing message — private or not — has its pinned
flag set to `False` with `update_unpinned` and `success` emits; only a
missing message gets an `error`. -/
def handle_unpin_message (st : ServerState) (caller : Conn) (data : Payload) :
    HandlerOut :=
  if !(caller.user.authed && caller.user.isAdmin) then
    ⟨st, [⟨"error", .errorMsg "Admin access required", .caller⟩], [], false⟩
  else
    match data with
    | .str _ => crashOut st
    | .dict d =>
        if !natTruthy d.messageId then
          ⟨st, [⟨"error", .errorMsg "Message ID required", .caller⟩], [], false⟩
        else
          let mid := d.messageId.getD 0
          match findMessage st mid with
          | some _ =>
              ⟨setPinned st mid false,
                [⟨"update_unpinned", .unpinUpdate mid, .caller⟩,
                 ⟨"success", .successMsg "Message unpinned successfully", .caller⟩],
                [], false⟩
          | none =>
              ⟨st, [⟨"error", .errorMsg "Message not found", .caller⟩], [], false⟩

/-- Embeds `handle_typing` (app.py:1733-1779): with `chat_type == 'private'`
and a truthy `recipient_id`, emit `user_typing` to that user's personal room;
in EVERY other case (including `chat_type == 'private'` with a falsy or absent
recipient id) emit `user_typing` with `include_self=False` and no room —
which addresses the caller's own sid room while skipping the caller. -/
def handle_typing (st : ServerState) (caller : Conn) (data : Payload) :
    HandlerOut :=
  if caller.user.authed then
    match data with
    | .str _ => crashOut st
    | .dict d =>
        let chatType := d.chatType.getD "public"
        let typingData : EData :=
          .typingInd caller.user.id caller.user.username caller.user.displayName
            (d.isTyping.getD false) chatType
        if chatType = "private" && natTruthy d.recipientId then
          ⟨st, [⟨"user_typing", typingData, .room (.user (d.recipientId.getD 0))⟩],
            [], false⟩
        else
          ⟨st, [⟨"user_typing", typingData, .callerExceptSelf⟩], [], false⟩
  else noEffects st

/- Concrete fixtures used by the evaluation theorems: two registered,
authenticated users on sids 1 and 2, connected in that order. -/

/-- Fixture: authenticated non-admin user 1. -/
def userA : Profile := ⟨1, "alice", "Alice", false, true⟩

/-- Fixture: authenticated non-admin user 2. -/
def userB : Profile := ⟨2, "bob", "Bob", false, true⟩

/-- Fixture: user 1's connection on sid 1. -/
def connA : Conn := ⟨1, userA⟩

/-- Fixture: user 2's connection on sid 2. -/
def connB : Conn := ⟨2, userB⟩

/-- Fixture: fresh server with users 1 and 2 registered. -/
def st0 : ServerState := { users := [1, 2] }

/-- Fixture: server state after user 1 connects. -/
def stA : ServerState := (handle_connect st0 connA).state

/-- Fixture: server state after users 1 and 2 connect. -/
def stAB : ServerState := (handle_connect stA connB).state

end Chattrix

namespace Chattrix

/-- C1: the claim says the `receive_message` event of an accepted public
message is delivered to every connected client.  In the code the emit at
app.py:1435 carries no `room` and no `broadcast=True`, so Flask-SocketIO
addresses it to the requesting sid only: with users 1 and 2 both connected,
user 2's message produces a `receive_message` whose recipient list is just
user 2's own sid — client 1 receives nothing, contradicting the handler's own
docstring ("Broadcasts message to all connected users"). -/
theorem C1_receive_message_reaches_only_the_sender :
    (handle_send_message stAB connB (.dict { text := some "hi" })).emits =
      [⟨"receive_message", .publicMsg 1 2 "hi", .caller⟩] ∧
    recipients stAB.rooms [1, 2] connB.sid Target.caller = [2] ∧
    (1 : Nat) ∉ recipients stAB.rooms [1, 2] connB.sid Target.caller := by
  decide

/-- C4: the claim says the refreshed `online_users` snapshot is re-broadcast
to every connected client after each connect/disconnect.  The emits at
app.py:1168 and app.py:1196 are bare emits, so only the client whose
connect/disconnect triggered the handler receives the snapshot: when user 2
connects (or disconnects) while user 1 is online, the recipient list is
`[2]` and client 1 never sees the update, contradicting the handlers' own
docstrings ("Broadcasts updated online users list to all clients"). -/
theorem C4_online_users_reaches_only_the_triggering_client :
    (handle_connect stA connB).emits =
      [⟨"online_users", .onlineList [⟨1, "alice", "Alice"⟩, ⟨2, "bob", "Bob"⟩],
        .caller⟩] ∧
    (handle_disconnect stAB connB).emits =
      [⟨"online_users", .onlineList [⟨1, "alice", "Alice"⟩], .caller⟩] ∧
    recipients stAB.rooms [1, 2] connB.sid Target.caller = [2] ∧
    (1 : Nat) ∉ recipients stAB.rooms [1, 2] connB.sid Target.caller := by
  decide

/-- C10: the claim says a `typing` event with `chat_type='private'` and no
recipient id is broadcast as `user_typing` to every connected client except
the sender.  The event does fall through to the public branch
(app.py:1777), but that emit uses `include_self=False` with no room and no
`broadcast=True`, so Flask-SocketIO addresses the caller's own sid room while
skipping the caller: no client at all receives it, contradicting the inline
comment ("Send typing indicator to all users in public chat"). -/
theorem C10_private_typing_without_recipient_reaches_no_client :
    (handle_typing stAB connA
        (.dict { chatType := some "private", isTyping := some true })).emits =
      [⟨"user_typing", .typingInd 1 "alice" "Alice" true "private",
        .callerExceptSelf⟩] ∧
    recipients stAB.rooms [1, 2] connA.sid Target.callerExceptSelf = [] := by
  decide

/- Helper lemmas shared by the remaining claims. -/

/-- `getOrCreateConversation` touches only the conversation table: the
message list is unchanged. -/
theorem getOrCreateConversation_messages (st : ServerState) (a b : Nat) :
    (getOrCreateConversation st a b).1.messages = st.messages := by
  unfold getOrCreateConversation
  split <;> rfl

/-- `getOrCreateConversation` leaves the location map unchanged. -/
theorem getOrCreateConversation_userLocations (st : ServerState) (a b : Nat) :
    (getOrCreateConversation st a b).1.userLocations = st.userLocations := by
  unfold getOrCreateConversation
  split <;> rfl

/-- Leaving a room removes exactly the leaving sid from that room's
member list. -/
theorem roomMembers_leaveRoom (rooms : List (Room × List Nat)) (r : Room)
    (sid : Nat) :
    roomMembers (leaveRoom rooms r sid) r =
      (roomMembers rooms r).filter (fun s => s != sid) := by
  induction rooms with
  | nil => rfl
  | cons p l ih =>
      by_cases h : p.1 = r
      · simp [leaveRoom, roomMembers, h]
      · simpa [leaveRoom, roomMembers, h] using ih

/-- Fixture for C2: both users connected and the recipient (user 2) has
reported location `"private:1"`, i.e. exactly the claim's
`"private:<senderId>"` token for sender 1. -/
def stC2 : ServerState := { stAB with userLocations := [(2, some "private:1")] }

/-- C2, counterexample: with recipient 2's tracked location equal to
`"private:1"`, the claim says user 1's private message to user 2 produces no
notification and no push attempt; the code (app.py:1534-1549) sends both
unconditionally — it never reads `dictUserLocations`. -/
theorem C2_counterexample_notification_sent_despite_matching_location :
    (⟨"notification",
      .notify "private_message" "Message from Alice" "hi" "/chat/1" (some 1),
      .room (.user 2)⟩ : Emit) ∈
      (handle_send_private_message stC2 connA
        (.dict { recipientId := some 2, text := some "hi" })).emits ∧
    (handle_send_private_message stC2 connA
        (.dict { recipientId := some 2, text := some "hi" })).pushes =
      [⟨2, "Message from Alice", "hi", "/chat/1"⟩] := by
  decide

/-- C2, amended: for every accepted private message (from either handler,
`send_private_message` or the alias `private_message`) from an authenticated
sender, the in-band `notification` event to the recipient's personal room and
the push attempt are issued UNCONDITIONALLY — neither handler consults the
sender's or recipient's tracked location. -/
theorem C2_amended_private_notification_unconditional (st : ServerState)
    (caller : Conn) (d : PDict) (rid : Nat)
    (hauth : caller.user.authed = true)
    (hrid : d.recipientId = some rid) (h0 : rid ≠ 0) :
    (pyTextOrMessage d ≠ "" →
      (⟨"notification",
        .notify "private_message" ("Message from " ++ displayOrUsername caller.user)
          (truncEllipsis (pyTextOrMessage d) 100)
          ("/chat/" ++ toString caller.user.id) (some caller.user.id),
        .room (.user rid)⟩ : Emit) ∈
        (handle_send_private_message st caller (.dict d)).emits ∧
      (handle_send_private_message st caller (.dict d)).pushes =
        [⟨rid, "Message from " ++ displayOrUsername caller.user,
          truncEllipsis (pyTextOrMessage d) 100,
          "/chat/" ++ toString caller.user.id⟩]) ∧
    (∀ mtext, d.message = some mtext → rid ∈ st.users →
      (⟨"notification",
        .notify "private_message" ("Message from " ++ displayOrUsername caller.user)
          (truncEllipsis mtext 100)
          ("/chat/" ++ toString caller.user.id) (some caller.user.id),
        .room (.user rid)⟩ : Emit) ∈
        (handle_private_message st caller (.dict d)).emits ∧
      (handle_private_message st caller (.dict d)).pushes =
        [⟨rid, "Message from " ++ displayOrUsername caller.user,
          truncEllipsis mtext 100,
          "/chat/" ++ toString caller.user.id⟩]) := by
  constructor
  · intro htext
    simp only [handle_send_private_message, hauth, if_true, hrid]
    have h1 : natTruthy (some rid) = true := by
      simp [natTruthy, h0]
    simp [h1, htext, sendPrivateCore]
  · intro mtext hmsg husers
    have hcontains : st.users.contains rid = true := List.elem_iff.mpr husers
    simp [handle_private_message, hauth, hrid, hmsg, hcontains, husers, sendPrivateCore]

/-- C2, witness: the amended theorem applied at the concrete fixture (the
recipient's tracked location in `stC2` is exactly `"private:1"`). -/
theorem C2_amended_witness :
    (⟨"notification",
      .notify "private_message" ("Message from " ++ displayOrUsername connA.user)
        (truncEllipsis (pyTextOrMessage { recipientId := some 2, text := some "hi" }) 100)
        ("/chat/" ++ toString connA.user.id) (some connA.user.id),
      .room (.user 2)⟩ : Emit) ∈
      (handle_send_private_message stC2 connA
        (.dict { recipientId := some 2, text := some "hi" })).emits ∧
    (handle_send_private_message stC2 connA
        (.dict { recipientId := some 2, text := some "hi" })).pushes =
      [⟨2, "Message from " ++ displayOrUsername connA.user,
        truncEllipsis (pyTextOrMessage { recipientId := some 2, text := some "hi" }) 100,
        "/chat/" ++ toString connA.user.id⟩] :=
  (C2_amended_private_notification_unconditional stC2 connA
    { recipientId := some 2, text := some "hi" } 2 rfl rfl (by decide)).1
    (by decide)

/-- Fixture for C3: user 1 connects, reports location `"public_chat"`, then
disconnects. -/
def stC3 : ServerState :=
  (handle_disconnect
    (handle_user_location stA connA (.dict { location := some "public_chat" })).state
    connA).state

/-- C3, counterexample: after user 1 disconnects, the claim says the location
entry is absent; in the code `handle_disconnect` (app.py:1172-1198) never
touches `dictUserLocations`, so the entry `"public_chat"` survives the
disconnect (while the online-users entry is indeed removed). -/
theorem C3_counterexample_location_survives_disconnect :
    stC3.userLocations.lookup 1 = some (some "public_chat") ∧
    stC3.onlineUsers = [] := by
  decide

/-- C3, amended: after an authenticated user disconnects, the user's entry is
removed from the online-users registry and the user's sid leaves the personal
room, but the location map is left completely unchanged — a previously
reported location entry persists past the disconnect. -/
theorem C3_amended_disconnect_cleans_registry_but_not_location
    (st : ServerState) (caller : Conn) (hauth : caller.user.authed = true) :
    (handle_disconnect st caller).state.userLocations = st.userLocations ∧
    (∀ p ∈ (handle_disconnect st caller).state.onlineUsers,
      p.1 ≠ caller.user.id) ∧
    caller.sid ∉
      roomMembers (handle_disconnect st caller).state.rooms
        (.user caller.user.id) := by
  refine ⟨?_, ?_, ?_⟩
  · simp [handle_disconnect, hauth]
  · intro p hp
    simp only [handle_disconnect, hauth, if_true] at hp
    have := List.mem_filter.mp hp
    simpa using this.2
  · simp only [handle_disconnect, hauth, if_true]
    rw [roomMembers_leaveRoom]
    intro hmem
    have := List.mem_filter.mp hmem
    simp at this

/-- C3, witness: the amended theorem applied at the concrete fixture. -/
theorem C3_amended_witness :
    (handle_disconnect stA connA).state.userLocations = stA.userLocations ∧
    (∀ p ∈ (handle_disconnect stA connA).state.onlineUsers,
      p.1 ≠ connA.user.id) ∧
    connA.sid ∉
      roomMembers (handle_disconnect stA connA).state.rooms
        (.user connA.user.id) :=
  C3_amended_disconnect_cleans_registry_but_not_location stA connA rfl

/-- C5, counterexample: the claim says BOTH private-message handlers answer an
empty body with a structured `error` and persist nothing.  The alias handler
`handle_private_message` (app.py:1294-1377) performs no validation: a
`private_message` payload with recipient 2 and an empty body is persisted as
a private message, delivered, and no `error` event is emitted. -/
theorem C5_counterexample_alias_persists_empty_body :
    (handle_private_message stAB connA
        (.dict { recipientId := some 2, message := some "" })).state.messages =
      [⟨1, 1, some 2, "", true, false⟩] ∧
    (∀ e ∈ (handle_private_message stAB connA
        (.dict { recipientId := some 2, message := some "" })).emits,
      e.event ≠ "error") ∧
    (handle_private_message stAB connA
        (.dict { recipientId := some 2, message := some "" })).crashed = false := by
  decide

/-- C5, amended: only `send_private_message` validates.  (1) Its handler
answers a falsy recipient id or empty body with the structured `error` to the
caller only and changes nothing.  (2) The alias `private_message` with a
missing `recipient_id` or `message` key raises an uncaught exception before
any side effect — no `error` event, nothing persisted.  (3) The alias with
both keys present and an existing recipient persists even an empty body and
emits no `error`. -/
theorem C5_amended_only_send_private_message_validates (st : ServerState)
    (caller : Conn) (d : PDict) (rid : Nat)
    (hauth : caller.user.authed = true) :
    ((natTruthy d.recipientId = false ∨ pyTextOrMessage d = "") →
      handle_send_private_message st caller (.dict d) =
        ⟨st, [⟨"error", .errorMsg "Missing recipient or message", .caller⟩],
          [], false⟩) ∧
    ((d.recipientId = none ∨ d.message = none) →
      handle_private_message st caller (.dict d) = crashOut st) ∧
    (rid ∈ st.users →
      (handle_private_message st caller
          (.dict { recipientId := some rid, message := some "" })).state.messages =
        st.messages ++ [⟨st.nextMessageId, caller.user.id, some rid, "", true, false⟩] ∧
      ∀ e ∈ (handle_private_message st caller
          (.dict { recipientId := some rid, message := some "" })).emits,
        e.event ≠ "error") := by
  refine ⟨?_, ?_, ?_⟩
  · intro hval
    rcases hval with hval | hval
    · simp [handle_send_private_message, hauth, hval]
    · simp [handle_send_private_message, hauth, hval]
  · intro hmiss
    rcases hmiss with hmiss | hmiss
    · cases hrec : d.recipientId with
      | none => simp [handle_private_message, hauth, hrec]
      | some r => rw [hrec] at hmiss; cases hmiss
    · cases hrec : d.recipientId with
      | none => simp [handle_private_message, hauth, hrec]
      | some r => simp [handle_private_message, hauth, hrec, hmiss]
  · intro hrid
    constructor
    · simp [handle_private_message, hauth, hrid, sendPrivateCore,
        setConversationLastMessage, getOrCreateConversation_messages]
    · intro e he
      have hcontains : st.users.contains rid = true := List.elem_iff.mpr hrid
      simp only [handle_private_message, hauth, if_true, hcontains,
        sendPrivateCore, List.mem_cons, List.not_mem_nil, or_false] at he
      rcases he with rfl | rfl | rfl <;> simp

/-- C5, witness: the amended theorem applied at the concrete fixture. -/
theorem C5_amended_witness :
    ((natTruthy (PDict.recipientId { message := some "x" }) = false ∨
        pyTextOrMessage { message := some "x" } = "") →
      handle_send_private_message stAB connA (.dict { message := some "x" }) =
        ⟨stAB, [⟨"error", .errorMsg "Missing recipient or message", .caller⟩],
          [], false⟩) ∧
    ((PDict.recipientId { message := some "x" } = none ∨
        PDict.message { message := some "x" } = none) →
      handle_private_message stAB connA (.dict { message := some "x" }) =
        crashOut stAB) ∧
    (2 ∈ stAB.users →
      (handle_private_message stAB connA
          (.dict { recipientId := some 2, message := some "" })).state.messages =
        stAB.messages ++
          [⟨stAB.nextMessageId, connA.user.id, some 2, "", true, false⟩] ∧
      ∀ e ∈ (handle_private_message stAB connA
          (.dict { recipientId := some 2, message := some "" })).emits,
        e.event ≠ "error") :=
  C5_amended_only_send_private_message_validates stAB connA
    { message := some "x" } 2 rfl

/-- C7, counterexample: the claim says a connected user with NO tracked
location entry is always notified of a public message.  With users 1 and 2
connected and the location map empty, user 1's public message produces no
`notification` emit and no push at all: the loop at app.py:1438 iterates
`dictUserLocations.items()`, so absent entries are skipped, not notified. -/
theorem C7_counterexample_absent_location_entry_not_notified :
    (∀ e ∈ (handle_send_message stAB connA
        (.dict { text := some "hello" })).emits,
      e.event ≠ "notification") ∧
    (handle_send_message stAB connA (.dict { text := some "hello" })).pushes =
      [] := by
  decide

/-- C7, amended: a user with no entry in the location map receives NO public
message notification and no push attempt — the notification loop iterates the
location map, so absence of an entry means the user is skipped (the opposite
of the claimed conservative always-notify). -/
theorem C7_amended_absent_location_means_no_notification (st : ServerState)
    (caller : Conn) (data : Payload) (uid : Nat)
    (habsent : uid ∉ st.userLocations.map (fun p => p.1)) :
    (∀ e ∈ (handle_send_message st caller data).emits,
      e.target ≠ .room (.user uid)) ∧
    (∀ p ∈ (handle_send_message st caller data).pushes, p.userId ≠ uid) := by
  unfold handle_send_message
  by_cases hauth : caller.user.authed = true
  · simp only [hauth, if_true]
    cases data with
    | str s => simp [crashOut]
    | dict d =>
        by_cases htext : pyStrip (d.text.getD "") = ""
        · simp [htext, noEffects]
        · simp only [htext, if_false]
          constructor
          · intro e he
            simp only [List.mem_cons, List.mem_map, List.mem_filter] at he
            rcases he with he | ⟨p, ⟨hp, _⟩, rfl⟩
            · subst he; simp
            · simp only [ne_eq, Target.room.injEq, Room.user.injEq]
              intro hcontra
              exact habsent (List.mem_map.mpr ⟨p, hp, hcontra⟩)
          · intro p hp
            simp only [List.mem_map, List.mem_filter] at hp
            rcases hp with ⟨q, ⟨hq, _⟩, rfl⟩
            intro hcontra
            exact habsent (List.mem_map.mpr ⟨q, hq, hcontra⟩)
  · simp only [Bool.not_eq_true] at hauth
    simp [hauth, noEffects]

/-- C7, witness: the amended theorem applied at the concrete fixture (user 2
is connected but has no location entry in `stAB`). -/
theorem C7_amended_witness :
    (∀ e ∈ (handle_send_message stAB connA
        (.dict { text := some "hello" })).emits,
      e.target ≠ .room (.user 2)) ∧
    (∀ p ∈ (handle_send_message stAB connA
        (.dict { text := some "hello" })).pushes, p.userId ≠ 2) :=
  C7_amended_absent_location_means_no_notification stAB connA
    (.dict { text := some "hello" }) 2 (by decide)

/-- Fixture: an authenticated admin (user 3) on sid 3. -/
def adminU : Profile := ⟨3, "carol", "Carol", true, true⟩

/-- Fixture: the admin's connection. -/
def connAdmin : Conn := ⟨3, adminU⟩

/-- Fixture for C8: the message table holds one PRIVATE message (id 5) whose
pinned flag is set. -/
def stC8 : ServerState :=
  { st0 with messages := [⟨5, 1, some 2, "secret", true, true⟩], nextMessageId := 6 }

/-- C8, counterexample: the claim says any unpin attempt on a private message
emits a structured error and leaves every pinned flag unchanged.  In the code
`handle_unpin_message` (app.py:1655-1701) checks only existence, not privacy:
an admin unpinning private message 5 clears its pinned flag and receives
`update_unpinned` + `success`, not an error. -/
theorem C8_counterexample_unpin_mutates_private_message :
    (handle_unpin_message stC8 connAdmin
        (.dict { messageId := some 5 })).state.messages =
      [⟨5, 1, some 2, "secret", true, false⟩] ∧
    (handle_unpin_message stC8 connAdmin (.dict { messageId := some 5 })).emits =
      [⟨"update_unpinned", .unpinUpdate 5, .caller⟩,
       ⟨"success", .successMsg "Message unpinned successfully", .caller⟩] := by
  decide

/-- C8, amended: pin changes the pinned flag only for an existing PUBLIC
message, and pin attempts by non-admins, with a falsy id, on missing messages
or on private messages emit a structured error to the issuer only with no
mutation; unpin performs the same admin/id/existence checks but NO privacy
check — an admin's unpin of ANY existing message (private included) clears
its pinned flag and emits `update_unpinned` + `success`. -/
theorem C8_amended_pin_checks_privacy_unpin_does_not (st : ServerState)
    (caller : Conn) (d : PDict) (mid : Nat) (m : MessageRec) :
    ((caller.user.authed && caller.user.isAdmin) = false →
      handle_pin_message st caller (.dict d) =
        ⟨st, [⟨"error", .errorMsg "Admin access required", .caller⟩], [], false⟩ ∧
      handle_unpin_message st caller (.dict d) =
        ⟨st, [⟨"error", .errorMsg "Admin access required", .caller⟩], [], false⟩) ∧
    ((caller.user.authed && caller.user.isAdmin) = true →
      natTruthy d.messageId = false →
      handle_pin_message st caller (.dict d) =
        ⟨st, [⟨"error", .errorMsg "Message ID required", .caller⟩], [], false⟩ ∧
      handle_unpin_message st caller (.dict d) =
        ⟨st, [⟨"error", .errorMsg "Message ID required", .caller⟩], [], false⟩) ∧
    ((caller.user.authed && caller.user.isAdmin) = true →
      d.messageId = some mid → mid ≠ 0 → findMessage st mid = some m →
      ((m.isPrivate = true →
        handle_pin_message st caller (.dict d) =
          ⟨st, [⟨"error", .errorMsg "Message not found or is private", .caller⟩],
            [], false⟩) ∧
       (m.isPrivate = false →
        handle_pin_message st caller (.dict d) =
          ⟨setPinned st mid true,
            [⟨"update_pinned", .pinUpdate mid, .caller⟩,
             ⟨"success", .successMsg "Message pinned successfully", .caller⟩],
            [], false⟩) ∧
       handle_unpin_message st caller (.dict d) =
         ⟨setPinned st mid false,
           [⟨"update_unpinned", .unpinUpdate mid, .caller⟩,
            ⟨"success", .successMsg "Message unpinned successfully", .caller⟩],
           [], false⟩)) ∧
    ((caller.user.authed && caller.user.isAdmin) = true →
      d.messageId = some mid → mid ≠ 0 → findMessage st mid = none →
      handle_pin_message st caller (.dict d) =
        ⟨st, [⟨"error", .errorMsg "Message not found or is private", .caller⟩],
          [], false⟩ ∧
      handle_unpin_message st caller (.dict d) =
        ⟨st, [⟨"error", .errorMsg "Message not found", .caller⟩], [], false⟩) := by
  refine ⟨?_, ?_, ?_, ?_⟩
  · intro hadm
    exact ⟨by simp [handle_pin_message, hadm],
           by simp [handle_unpin_message, hadm]⟩
  · intro hadm hfalsy
    exact ⟨by simp [handle_pin_message, hadm, hfalsy],
           by simp [handle_unpin_message, hadm, hfalsy]⟩
  · intro hadm hmid h0 hfind
    refine ⟨?_, ?_, ?_⟩
    · intro hpriv
      simp [handle_pin_message, hadm, natTruthy, hmid, h0, hfind, hpriv]
    · intro hpriv
      simp [handle_pin_message, hadm, natTruthy, hmid, h0, hfind, hpriv]
    · simp [handle_unpin_message, hadm, natTruthy, hmid, h0, hfind]
  · intro hadm hmid h0 hfind
    exact ⟨by simp [handle_pin_message, hadm, natTruthy, hmid, h0, hfind],
           by simp [handle_unpin_message, hadm, natTruthy, hmid, h0, hfind]⟩

/-- C8, witness: the amended theorem applied at the concrete fixture — the
admin's unpin of private pinned message 5 clears the flag and succeeds. -/
theorem C8_amended_witness :
    handle_unpin_message stC8 connAdmin (.dict { messageId := some 5 }) =
      ⟨setPinned stC8 5 false,
        [⟨"update_unpinned", .unpinUpdate 5, .caller⟩,
         ⟨"success", .successMsg "Message unpinned successfully", .caller⟩],
        [], false⟩ :=
  ((C8_amended_pin_checks_privacy_unpin_does_not stC8 connAdmin
      { messageId := some 5 } 5 ⟨5, 1, some 2, "secret", true, true⟩).2.2.1
    rfl rfl (by decide) (by decide)).2.2

/-- C9, counterexample: the claim says every alias handler matches
`handle_send_message` with bare strings coerced to a message body.  The
`message` alias (app.py:1554-1569) forwards the payload verbatim, so a bare
string reaches `data.get('text', '')`, which raises: nothing is persisted and
nothing is emitted, unlike the claimed coerced behavior, which persists the
body (as `handle_new_message` does via its string coercion at app.py:1587). -/
theorem C9_counterexample_message_alias_does_not_coerce_strings :
    handle_message stAB connA (.str "hi") ≠
      handle_send_message stAB connA (.dict { text := some "hi" }) ∧
    (handle_message stAB connA (.str "hi")).crashed = true ∧
    (handle_message stAB connA (.str "hi")).state.messages = [] ∧
    (handle_send_message stAB connA
        (.dict { text := some "hi" })).state.messages =
      [⟨1, 1, none, "hi", false, false⟩] := by
  decide

/-- C9, amended: on dict payloads all three alias handlers behave exactly as
`handle_send_message`; only `new_message` coerces a bare string into
`{'text': s}`; `message` and `send_public_message` forward a bare string
unchanged, on which `handle_send_message` raises at `data.get` for an
authenticated sender (nothing persisted, nothing emitted). -/
theorem C9_amended_alias_equivalence (st : ServerState) (caller : Conn)
    (data : Payload) (d : PDict) (s : String) :
    handle_message st caller data = handle_send_message st caller data ∧
    handle_send_public_message st caller data =
      handle_send_message st caller data ∧
    handle_new_message st caller (.dict d) =
      handle_send_message st caller (.dict d) ∧
    handle_new_message st caller (.str s) =
      handle_send_message st caller (.dict { text := some s }) ∧
    handle_send_message st caller (.str s) =
      ⟨st, [], [], caller.user.authed⟩ := by
  refine ⟨rfl, rfl, rfl, rfl, ?_⟩
  cases hauth : caller.user.authed <;>
    simp [handle_send_message, hauth, crashOut, noEffects]

/- Development for C6: the conversation table keeps exactly one canonical row
per unordered user pair under any sequence of private sends. -/

/-- The conversation rows matching the unordered pair `(a, b)`. -/
def pairRows (st : ServerState) (a b : Nat) : List ConversationRec :=
  st.conversations.filter (fun c => convMatches c a b)

/-- Exactly one conversation row exists for the pair and it stores the
smaller id as `user1Id` and the larger as `user2Id`. -/
def goodPair (st : ServerState) (a b : Nat) : Prop :=
  (pairRows st a b).length = 1 ∧
  ∀ c ∈ pairRows st a b, c.user1Id = min a b ∧ c.user2Id = max a b

/-- The pair filter is orientation-independent. -/
theorem convMatches_symm (c : ConversationRec) (a b : Nat) :
    convMatches c b a = convMatches c a b := by
  simp [convMatches, Bool.or_comm]

/-- Updating a row's last-message pointer does not change whether it matches
a pair. -/
theorem convMatches_updLast (cid mid : Nat) (c : ConversationRec) (a b : Nat) :
    convMatches (updLast cid mid c) a b = convMatches c a b := by
  unfold updLast
  split <;> rfl

/-- Updating a row's last-message pointer keeps `user1Id`. -/
theorem user1Id_updLast (cid mid : Nat) (c : ConversationRec) :
    (updLast cid mid c).user1Id = c.user1Id := by
  unfold updLast
  split <;> rfl

/-- Updating a row's last-message pointer keeps `user2Id`. -/
theorem user2Id_updLast (cid mid : Nat) (c : ConversationRec) :
    (updLast cid mid c).user2Id = c.user2Id := by
  unfold updLast
  split <;> rfl

/-- Filtering for a pair commutes with the last-message update map. -/
theorem filter_map_updLast (l : List ConversationRec) (cid mid a b : Nat) :
    (l.map (updLast cid mid)).filter (fun c => convMatches c a b) =
      (l.filter (fun c => convMatches c a b)).map (updLast cid mid) := by
  induction l with
  | nil => rfl
  | cons c l ih =>
      cases h : convMatches c a b <;>
        simp [List.filter_cons, convMatches_updLast, h, ih]

/-- A freshly created canonical row matches its own pair. -/
theorem convMatches_canonical (nid : Nat) (x : Option Nat) (a b : Nat) :
    convMatches ⟨nid, min a b, max a b, x⟩ a b = true := by
  rcases Nat.le_total a b with h | h <;>
    simp [convMatches, Nat.min_eq_left, Nat.min_eq_right,
      Nat.max_eq_left, Nat.max_eq_right, h]

/-- The conversation table after the shared private-delivery core: the first
row matching the pair gets its last-message pointer updated; if none exists a
canonical `(min, max)` row is appended and then pointed at the new message. -/
theorem sendPrivateCore_conversations (st : ServerState) (sender : Profile)
    (rid : Nat) (t : String) :
    (sendPrivateCore st sender rid t).state.conversations =
      match st.conversations.find? (fun c => convMatches c sender.id rid) with
      | some c0 => st.conversations.map (updLast c0.id st.nextMessageId)
      | none =>
          (st.conversations ++
            [(⟨st.nextConversationId, min sender.id rid, max sender.id rid, none⟩ :
              ConversationRec)]).map
              (updLast st.nextConversationId st.nextMessageId) := by
  unfold sendPrivateCore getOrCreateConversation setConversationLastMessage
  cases hfind : st.conversations.find? (fun c => convMatches c sender.id rid) <;>
    simp [hfind]

/-- An accepted `send_private_message` (authenticated sender, truthy recipient
id, non-empty body) runs exactly the shared private-delivery core. -/
theorem handle_send_private_message_accepts (st : ServerState) (caller : Conn)
    (rid : Nat) (t : String) (hauth : caller.user.authed = true)
    (h0 : rid ≠ 0) (ht : t ≠ "") :
    handle_send_private_message st caller
        (.dict { recipientId := some rid, text := some t }) =
      sendPrivateCore st caller.user rid t := by
  simp [handle_send_private_message, hauth, natTruthy, h0, pyTextOrMessage, ht]

/-- If no row matches the pair, the private-delivery core creates exactly one
canonical row. -/
theorem goodPair_after_core_of_empty (st : ServerState) (sender : Profile)
    (rid : Nat) (t : String) (hempty : pairRows st sender.id rid = []) :
    goodPair (sendPrivateCore st sender rid t).state sender.id rid := by
  have hnone : st.conversations.find? (fun c => convMatches c sender.id rid) = none := by
    rw [List.find?_eq_none]
    intro c hc hmatch
    have hmem : c ∈ pairRows st sender.id rid := List.mem_filter.mpr ⟨hc, hmatch⟩
    rw [hempty] at hmem
    cases hmem
  have hrows : pairRows (sendPrivateCore st sender rid t).state sender.id rid =
      [updLast st.nextConversationId st.nextMessageId
        (⟨st.nextConversationId, min sender.id rid, max sender.id rid, none⟩ :
          ConversationRec)] := by
    unfold pairRows
    rw [sendPrivateCore_conversations, hnone, filter_map_updLast,
      List.filter_append]
    have h1 : st.conversations.filter (fun c => convMatches c sender.id rid) = [] :=
      hempty
    rw [h1, List.nil_append, List.filter_cons]
    simp [convMatches_canonical]
  constructor
  · rw [hrows]; rfl
  · intro c hc
    rw [hrows, List.mem_singleton] at hc
    subst hc
    exact ⟨user1Id_updLast _ _ _, user2Id_updLast _ _ _⟩

/-- If exactly one canonical row matches the pair, it still does after the
private-delivery core runs. -/
theorem goodPair_after_core_of_good (st : ServerState) (sender : Profile)
    (rid : Nat) (t : String) (hgood : goodPair st sender.id rid) :
    goodPair (sendPrivateCore st sender rid t).state sender.id rid := by
  obtain ⟨hlen, hcanon⟩ := hgood
  cases hfind : st.conversations.find? (fun c => convMatches c sender.id rid) with
  | none =>
      exfalso
      rw [List.find?_eq_none] at hfind
      have : pairRows st sender.id rid = [] := by
        unfold pairRows
        rw [List.filter_eq_nil_iff]
        intro c hc
        simpa using hfind c hc
      rw [this] at hlen
      cases hlen
  | some c0 =>
      have hrows : pairRows (sendPrivateCore st sender rid t).state sender.id rid =
          (pairRows st sender.id rid).map (updLast c0.id st.nextMessageId) := by
        unfold pairRows
        rw [sendPrivateCore_conversations, hfind, filter_map_updLast]
      constructor
      · rw [hrows, List.length_map]; exact hlen
      · intro c hc
        rw [hrows] at hc
        obtain ⟨c1, hc1, rfl⟩ := List.mem_map.mp hc
        obtain ⟨h1, h2⟩ := hcanon c1 hc1
        exact ⟨by rw [user1Id_updLast]; exact h1,
               by rw [user2Id_updLast]; exact h2⟩

/-- Pair rows are orientation-independent. -/
theorem pairRows_symm (st : ServerState) (a b : Nat) :
    pairRows st b a = pairRows st a b := by
  unfold pairRows
  exact List.filter_congr (fun c _ => convMatches_symm c a b)

/-- `goodPair` is orientation-independent. -/
theorem goodPair_symm (st : ServerState) (a b : Nat) (h : goodPair st b a) :
    goodPair st a b := by
  obtain ⟨hlen, hcanon⟩ := h
  constructor
  · rw [← pairRows_symm]; exact hlen
  · intro c hc
    rw [← pairRows_symm] at hc
    obtain ⟨h1, h2⟩ := hcanon c hc
    exact ⟨by rw [Nat.min_comm]; exact h1, by rw [Nat.max_comm]; exact h2⟩

/-- One accepted private send inside the pair `(a, b)`: direction `true` is
a→b issued from connection `ca`, direction `false` is b→a from `cb`; the
string component is the message body. -/
def sendStep (ca cb : Conn) (a b : Nat) (st : ServerState) (d : Bool × String) :
    ServerState :=
  if d.1 then
    (handle_send_private_message st ca
      (.dict { recipientId := some b, text := some d.2 })).state
  else
    (handle_send_private_message st cb
      (.dict { recipientId := some a, text := some d.2 })).state

/-- A single accepted send between the pair establishes or preserves the
exactly-one-canonical-row property. -/
theorem sendStep_goodPair (ca cb : Conn) (a b : Nat) (st : ServerState)
    (d : Bool × String)
    (ha : ca.user.id = a) (hb : cb.user.id = b)
    (hca : ca.user.authed = true) (hcb : cb.user.authed = true)
    (ha0 : a ≠ 0) (hb0 : b ≠ 0) (ht : d.2 ≠ "")
    (h : pairRows st a b = [] ∨ goodPair st a b) :
    goodPair (sendStep ca cb a b st d) a b := by
  unfold sendStep
  by_cases hdir : d.1 = true
  · rw [if_pos hdir, handle_send_private_message_accepts st ca b d.2 hca hb0 ht]
    rcases h with h | h
    · have := goodPair_after_core_of_empty st ca.user b d.2 (by rw [ha]; exact h)
      rw [ha] at this
      exact this
    · have := goodPair_after_core_of_good st ca.user b d.2 (by rw [ha]; exact h)
      rw [ha] at this
      exact this
  · rw [if_neg hdir, handle_send_private_message_accepts st cb a d.2 hcb ha0 ht]
    apply goodPair_symm
    rcases h with h | h
    · have := goodPair_after_core_of_empty st cb.user a d.2
        (by rw [hb, pairRows_symm]; exact h)
      rw [hb] at this
      exact this
    · have := goodPair_after_core_of_good st cb.user a d.2
        (by rw [hb]; exact goodPair_symm st b a h)
      rw [hb] at this
      exact this

/-- Any further accepted sends between the pair preserve the
exactly-one-canonical-row property. -/
theorem foldl_sendStep_goodPair (ca cb : Conn) (a b : Nat)
    (ha : ca.user.id = a) (hb : cb.user.id = b)
    (hca : ca.user.authed = true) (hcb : cb.user.authed = true)
    (ha0 : a ≠ 0) (hb0 : b ≠ 0) :
    ∀ (ds : List (Bool × String)) (st : ServerState), goodPair st a b →
      (∀ p ∈ ds, p.2 ≠ "") →
      goodPair (ds.foldl (sendStep ca cb a b) st) a b := by
  intro ds
  induction ds with
  | nil =>
      intro st h _
      simpa using h
  | cons d ds ih =>
      intro st h hts
      rw [List.foldl_cons]
      exact ih _
        (sendStep_goodPair ca cb a b st d ha hb hca hcb ha0 hb0
          (hts d (List.mem_cons_self d ds)) (Or.inr h))
        (fun p hp => hts p (List.mem_cons_of_mem d hp))

/-- C6: starting from a state with no conversation row for the distinct pair
`(a, b)`, any nonempty sequence of accepted private sends between `a` and `b`
(each direction chosen arbitrarily, any number of times) leaves EXACTLY ONE
conversation row matching the pair, and that row stores the smaller id as
`user1Id` and the larger as `user2Id` — find-or-create is commutative and
idempotent as claimed. -/
theorem C6_conversation_find_or_create_canonical (st : ServerState)
    (a b : Nat) (ca cb : Conn) (ds : List (Bool × String))
    (_hab : a ≠ b)
    (ha : ca.user.id = a) (hb : cb.user.id = b)
    (hca : ca.user.authed = true) (hcb : cb.user.authed = true)
    (ha0 : a ≠ 0) (hb0 : b ≠ 0)
    (hstart : pairRows st a b = [])
    (hne : ds ≠ []) (hts : ∀ p ∈ ds, p.2 ≠ "") :
    goodPair (ds.foldl (sendStep ca cb a b) st) a b := by
  cases ds with
  | nil => exact absurd rfl hne
  | cons d ds =>
      rw [List.foldl_cons]
      exact foldl_sendStep_goodPair ca cb a b ha hb hca hcb ha0 hb0 ds _
        (sendStep_goodPair ca cb a b st d ha hb hca hcb ha0 hb0
          (hts d (List.mem_cons_self d ds)) (Or.inl hstart))
        (fun p hp => hts p (List.mem_cons_of_mem d hp))

/-- C6, witness: users 1 and 2 exchange a 1→2 send followed by a 2→1 send
from a fresh server; exactly one canonical conversation row results. -/
theorem C6_witness :
    goodPair
      ([(true, "hi"), (false, "yo")].foldl (sendStep connA connB 1 2) st0) 1 2 :=
  C6_conversation_find_or_create_canonical st0 1 2 connA connB
    [(true, "hi"), (false, "yo")] (by decide) rfl rfl rfl rfl
    (by decide) (by decide) (by decide) (by decide) (by decide)

end Chattrix
